/-
Verification of the table-tennis tracking core.

Shallow embedding of the ball tracker (`TableTennisBallTracker` in
`main.py`), the ball candidate extractor (`TableTennisBallDetector` in
`main.py`), and the table-detector geometry helpers
(`court_lines_detector.py`).

Conventions of the embedding:
* Python floats are modelled as exact rationals (`ℚ`) for the tracker and
  as reals (`ℝ`) where the source takes square roots (`_valid_table`).
* `np.linalg.norm(d) > thresh` comparisons are modelled as
  `‖d‖² > thresh²`, which is equivalent because every threshold in the
  source (`80 + 8·missing`, `250`, `9999`) is nonnegative; this keeps the
  tracker inside `ℚ` and executable.  Likewise `max(segs, key=length)`
  compares squared lengths.
* Rational arithmetic is written through the helpers `qadd`, `qsub`,
  `qmul`, `qdiv`, `qneg`.  They are *proved* equal to the standard `ℚ`
  operations (`qadd_eq_add` … below); they exist only because the
  library's `Rat.add` etc. are `@[irreducible]`, which would block kernel
  evaluation of concrete runs.
* The 6-state Kalman filter is the `filterpy` filter the source builds:
  state vector `[x, y, vx, vy, ax, ay]`, `predict` is `x ← F x`,
  `P ← F P Fᵀ + Q`, `update` is the standard correction with the Joseph
  form covariance update that `filterpy` uses.
-/
import Mathlib

namespace TTTrack

/-! ### Kernel-reducible rational arithmetic -/

def qadd (a b : ℚ) : ℚ := mkRat (a.num * b.den + b.num * a.den) (a.den * b.den)

def qsub (a b : ℚ) : ℚ := mkRat (a.num * b.den - b.num * a.den) (a.den * b.den)

def qmul (a b : ℚ) : ℚ := mkRat (a.num * b.num) (a.den * b.den)

def qdiv (a b : ℚ) : ℚ := Rat.divInt (a.num * b.den) (a.den * b.num)

def qneg (a : ℚ) : ℚ := mkRat (-a.num) a.den

/-! ### Matrices as lists of rows (exact rational arithmetic) -/

abbrev Mat := List (List ℚ)
abbrev Vec := List ℚ

def dotQ : Vec → Vec → ℚ
  | a :: as, b :: bs => qadd (qmul a b) (dotQ as bs)
  | _, _ => 0

def matTranspose (m : Mat) : Mat :=
  match m with
  | [] => []
  | r :: _ =>
    (List.range r.length).map (fun j => m.map (fun row => row.getD j 0))

def matMul (a b : Mat) : Mat :=
  let bt := matTranspose b
  a.map (fun row => bt.map (fun col => dotQ row col))

def matAdd (a b : Mat) : Mat :=
  a.zipWith (fun ra rb => ra.zipWith qadd rb) b

def matSub (a b : Mat) : Mat :=
  a.zipWith (fun ra rb => ra.zipWith qsub rb) b

def matVec (a : Mat) (v : Vec) : Vec :=
  a.map (fun row => dotQ row v)

def vecAdd (a b : Vec) : Vec := a.zipWith qadd b

/-- Scaled identity matrix `c * I_n`. -/
def scaledEye (n : Nat) (c : ℚ) : Mat :=
  (List.range n).map (fun i => (List.range n).map (fun j => if i = j then c else 0))

/-- Inverse of a 2×2 matrix (the innovation covariance `S` is 2×2). -/
def inv2 (m : Mat) : Mat :=
  let a := (m.getD 0 []).getD 0 0
  let b := (m.getD 0 []).getD 1 0
  let c := (m.getD 1 []).getD 0 0
  let d := (m.getD 1 []).getD 1 0
  let det := qsub (qmul a d) (qmul b c)
  [[qdiv d det, qneg (qdiv b det)], [qneg (qdiv c det), qdiv a det]]

/-! ### The 6D Kalman filter of `TableTennisBallTracker.__init__`

`KalmanFilter(dim_x=6, dim_z=2)` with the `F`, `H`, `P`, `R`, `Q`
assignments from `main.py` lines 243-261. -/

structure KF where
  x : Vec
  P : Mat
  deriving Repr, DecidableEq

/-- State-transition matrix `F` (constant-acceleration kinematics). -/
def kfF (dt : ℚ) : Mat :=
  let h := qdiv (qmul dt dt) 2
  [[1, 0, dt, 0, h, 0],
   [0, 1, 0, dt, 0, h],
   [0, 0, 1, 0, dt, 0],
   [0, 0, 0, 1, 0, dt],
   [0, 0, 0, 0, 1, 0],
   [0, 0, 0, 0, 0, 1]]

/-- Measurement matrix `H` (observe position only). -/
def kfH : Mat :=
  [[1, 0, 0, 0, 0, 0],
   [0, 1, 0, 0, 0, 0]]

/-- Process noise `Q`: `eye(6) * 0.2` with `Q[4,4] = 0.5`, `Q[5,5] = 0.8`. -/
def kfQ : Mat :=
  [[mkRat 1 5, 0, 0, 0, 0, 0],
   [0, mkRat 1 5, 0, 0, 0, 0],
   [0, 0, mkRat 1 5, 0, 0, 0],
   [0, 0, 0, mkRat 1 5, 0, 0],
   [0, 0, 0, 0, mkRat 1 2, 0],
   [0, 0, 0, 0, 0, mkRat 4 5]]

/-- Measurement noise `R = eye(2) * 3`. -/
def kfR : Mat := [[3, 0], [0, 3]]

/-- Initial filter: `x = 0`, `P = eye(6) * 200` (filterpy default `P`
scaled by the source's `self.kf.P *= 200`). -/
def kfInit : KF := { x := [0, 0, 0, 0, 0, 0], P := scaledEye 6 200 }

/-- `kf.predict()`: `x ← F x`, `P ← F P Fᵀ + Q`. -/
def kfPredict (dt : ℚ) (kf : KF) : KF :=
  let F := kfF dt
  { x := matVec F kf.x,
    P := matAdd (matMul (matMul F kf.P) (matTranspose F)) kfQ }

/-- `kf.update(z)`: standard Kalman correction; covariance via the Joseph
form `(I - K H) P (I - K H)ᵀ + K R Kᵀ` as in filterpy. -/
def kfUpdate (kf : KF) (z : ℚ × ℚ) : KF :=
  let Ht := matTranspose kfH
  let PHt := matMul kf.P Ht
  let S := matAdd (matMul kfH PHt) kfR
  let K := matMul PHt (inv2 S)
  let resid : Vec := [qsub z.1 (kf.x.getD 0 0), qsub z.2 (kf.x.getD 1 0)]
  let IKH := matSub (scaledEye 6 1) (matMul K kfH)
  { x := vecAdd kf.x (matVec K resid),
    P := matAdd (matMul (matMul IKH kf.P) (matTranspose IKH))
                (matMul (matMul K kfR) (matTranspose K)) }

/-- Position components `x[:2]` of the filter state. -/
def kfPos (kf : KF) : ℚ × ℚ := (kf.x.getD 0 0, kf.x.getD 1 0)

/-- Velocity components `x[2:4]` of the filter state. -/
def kfVel (kf : KF) : ℚ × ℚ := (kf.x.getD 2 0, kf.x.getD 3 0)

/-! ### Tracker state machine (`TableTennisBallTracker`) -/

/-- Re-acquisition modes `MODE_TRACKING` / `MODE_SEARCHING` /
`MODE_DESPERATE`. -/
inductive Mode where
  | tracking
  | searching
  | desperate
  deriving Repr, DecidableEq

/-- `_update_mode` (main.py lines 301-307): note that for
`1 ≤ missing_frames ≤ 4` the mode is left unchanged. -/
def updateMode (missing : Nat) (m : Mode) : Mode :=
  if missing = 0 then .tracking
  else if 12 ≤ missing then .desperate
  else if 5 ≤ missing then .searching
  else m

/-- Full tracker state: the fields assigned in
`TableTennisBallTracker.__init__`. -/
structure Tracker where
  fps : ℚ
  dt : ℚ
  table_bounds : Option (ℚ × ℚ × ℚ × ℚ)
  kf : KF
  initialized : Bool
  missing_frames : Nat
  max_missing : Nat
  mode : Mode
  bounces : List (Int × ℚ × ℚ)
  prev_vy : ℚ
  last_bounce_frame : Int
  history : List (ℚ × ℚ × Int)
  confirm_window : List Bool
  confirmed : Bool
  deriving Repr, DecidableEq

/-- `TableTennisBallTracker(fps, table_bounds)`. -/
def Tracker.init (fps : ℚ) (table_bounds : Option (ℚ × ℚ × ℚ × ℚ)) : Tracker :=
  { fps := fps
    dt := qdiv 1 fps
    table_bounds := table_bounds
    kf := kfInit
    initialized := false
    missing_frames := 0
    max_missing := 45
    mode := .tracking
    bounces := []
    prev_vy := 0
    last_bounce_frame := -30
    history := []
    confirm_window := []
    confirmed := false }

/-- `deque(maxlen=5).append b`: push on the right, keep the last 5. -/
def pushWindow (w : List Bool) (b : Bool) : List Bool :=
  let w' := w ++ [b]
  if 5 < w'.length then w'.drop (w'.length - 5) else w'

/-- `get_outlier_threshold` (main.py lines 292-299). -/
def outlierThreshold (s : Tracker) : ℚ :=
  match s.mode with
  | .tracking => qadd 80 (qmul (s.missing_frames : ℚ) 8)
  | .searching => 250
  | .desperate => 9999

/-- `get_search_radius` (main.py lines 283-290). -/
def searchRadius (s : Tracker) : ℚ :=
  match s.mode with
  | .tracking => 100
  | .searching => 200
  | .desperate => 9999

/-- The call `self._update_mode()` at the top of `update`. -/
def preUpdate (s : Tracker) : Tracker :=
  { s with mode := updateMode s.missing_frames s.mode }

/-- Squared distance of a measurement to the filter's current position
(the source compares `np.linalg.norm` to the threshold; squares are
compared here, see the header). -/
def measDist2 (s : Tracker) (z : ℚ × ℚ) : ℚ :=
  qadd (qmul (qsub z.1 (kfPos s.kf).1) (qsub z.1 (kfPos s.kf).1))
       (qmul (qsub z.2 (kfPos s.kf).2) (qsub z.2 (kfPos s.kf).2))

/-- Result dict of `TableTennisBallTracker.update`. -/
structure UpdateResult where
  position : Option (ℚ × ℚ)
  velocity : Option (ℚ × ℚ)
  is_bounce : Bool
  is_predicted : Bool
  mode : Mode
  deriving Repr, DecidableEq

/-- The temporal-confirmation rule of `update` (main.py lines 352-357):
`confirmed` after an update that appended to the window. -/
def confirmRule (w : List Bool) (old : Bool) : Bool :=
  if 3 ≤ w.count true then true
  else if w.count true ≤ 1 ∧ 5 ≤ w.length then false
  else old

/-- The bounce gate of `update` (main.py lines 362-375): previous vertical
velocity clearly downward, current one strictly upward, position on the
(margined) table, more than 8 frames since the last declared bounce. -/
def bounceGate (table_bounds : Option (ℚ × ℚ × ℚ × ℚ)) (prev_vy : ℚ)
    (last_bounce_frame : Int) (pos : ℚ × ℚ) (cur_vy : ℚ) (frame_num : Int) : Bool :=
  let on_table : Bool :=
    match table_bounds with
    | none => true
    | some (tx1, ty1, tx2, ty2) =>
      let margin_x := qmul (qsub tx2 tx1) (mkRat 1 10)
      let margin_y := qmul (qsub ty2 ty1) (mkRat 3 20)
      decide (qsub tx1 margin_x ≤ pos.1 ∧ pos.1 ≤ qadd tx2 margin_x ∧
              qsub ty1 margin_y ≤ pos.2 ∧ pos.2 ≤ qadd ty2 margin_y)
  decide (mkRat 3 10 < prev_vy) && decide (cur_vy < 0) && on_table &&
    decide (8 < frame_num - last_bounce_frame)

/-- The shared tail of the detection branch of `update` (main.py lines
352-391): temporal confirmation, bounce detection, history, return. -/
def detectTail (s : Tracker) (frame_num : Int) : UpdateResult × Tracker :=
  let confirmed' := confirmRule s.confirm_window s.confirmed
  let pos := kfPos s.kf
  let vel := kfVel s.kf
  let is_bounce := bounceGate s.table_bounds s.prev_vy s.last_bounce_frame pos vel.2 frame_num
  let s := if is_bounce then
      { s with last_bounce_frame := frame_num,
               bounces := s.bounces ++ [(frame_num, pos.1, pos.2)] }
    else s
  let s := { s with prev_vy := vel.2,
                    confirmed := confirmed',
                    history := s.history ++ [(pos.1, pos.2, frame_num)] }
  ({ position := if s.confirmed then some pos else none
     velocity := some vel
     is_bounce := is_bounce
     is_predicted := false
     mode := s.mode }, s)

/-- First-detection branch of `update` (main.py lines 319-323): seed the
filter state with the measurement and zero velocity/acceleration. -/
def initStep (s : Tracker) (z : ℚ × ℚ) (frame_num : Int) : UpdateResult × Tracker :=
  detectTail { s with kf := { s.kf with x := [z.1, z.2, 0, 0, 0, 0] },
                      initialized := true,
                      missing_frames := 0,
                      confirm_window := pushWindow s.confirm_window true } frame_num

/-- Outlier branch of `update` (main.py lines 329-344): predict-only,
count a missing frame, do not correct the estimator. -/
def outlierStep (s : Tracker) (frame_num : Int) : UpdateResult × Tracker :=
  let s := { s with confirm_window := pushWindow s.confirm_window false,
                    kf := kfPredict s.dt s.kf,
                    missing_frames := s.missing_frames + 1 }
  let s := { s with mode := updateMode s.missing_frames s.mode }
  let pos := kfPos s.kf
  let vel := kfVel s.kf
  let s := { s with history := s.history ++ [(pos.1, pos.2, frame_num)] }
  ({ position := if s.confirmed then some pos else none
     velocity := some vel
     is_bounce := false
     is_predicted := true
     mode := s.mode }, s)

/-- Accepted-measurement branch of `update` (main.py lines 346-350):
predict, correct with the measurement, reset the miss counter. -/
def acceptStep (s : Tracker) (z : ℚ × ℚ) (frame_num : Int) : UpdateResult × Tracker :=
  detectTail { s with kf := kfUpdate (kfPredict s.dt s.kf) z,
                      missing_frames := 0,
                      confirm_window := pushWindow s.confirm_window true } frame_num

/-- No-detection branch of `update` (main.py lines 393-419). -/
def missStep (s : Tracker) (frame_num : Int) : UpdateResult × Tracker :=
  let s := { s with confirm_window := pushWindow s.confirm_window false }
  if s.initialized = false then
    ({ position := none, velocity := none, is_bounce := false,
       is_predicted := false, mode := s.mode }, s)
  else
    let s := { s with missing_frames := s.missing_frames + 1 }
    let s := { s with mode := updateMode s.missing_frames s.mode }
    if s.max_missing < s.missing_frames then
      let s := { s with confirmed := false }
      ({ position := none, velocity := none, is_bounce := false,
         is_predicted := true, mode := s.mode }, s)
    else
      let s := { s with kf := kfPredict s.dt s.kf }
      let pos := kfPos s.kf
      let vel := kfVel s.kf
      let s := { s with history := s.history ++ [(pos.1, pos.2, frame_num)] }
      let show_pos := s.confirmed && decide (s.missing_frames ≤ 8)
      ({ position := if show_pos then some pos else none
         velocity := some vel
         is_bounce := false
         is_predicted := true
         mode := s.mode }, s)

/-- `TableTennisBallTracker.update` (main.py lines 309-419): update the
mode from the miss counter, then dispatch on the detection: initialize on
the first detection, reject measurements farther from the prediction than
the mode's threshold, otherwise correct; with no detection predict-only
(or report nothing once the miss counter has exceeded `max_missing`). -/
def update (s₀ : Tracker) (detection : Option (ℚ × ℚ)) (frame_num : Int) :
    UpdateResult × Tracker :=
  match detection with
  | some z =>
    if (preUpdate s₀).initialized = false then
      initStep (preUpdate s₀) z frame_num
    else if qmul (outlierThreshold (preUpdate s₀)) (outlierThreshold (preUpdate s₀)) <
        measDist2 s₀ z then
      outlierStep (preUpdate s₀) frame_num
    else
      acceptStep (preUpdate s₀) z frame_num
  | none => missStep (preUpdate s₀) frame_num

/-- Run a list of `(detection, frame_num)` updates, keeping the final state. -/
def runUpdates (s : Tracker) : List (Option (ℚ × ℚ) × Int) → Tracker
  | [] => s
  | (d, f) :: rest => runUpdates (update s d f).2 rest

/-- `k` consecutive no-detection updates starting at frame `f`. -/
def missRun (s : Tracker) (f : Int) : Nat → Tracker
  | 0 => s
  | k + 1 => (update (missRun s f k) none (f + k)).2

/-- The mode the spec's monotone ladder assigns to a running miss count. -/
def ladder (k : Nat) : Mode :=
  if k < 5 then .tracking else if k < 12 then .searching else .desperate

/-! ### Concrete runs used as witnesses and counterexamples -/

/-- One accepted detection at the origin, then 45 straight misses
(`fps = 1`, no table bounds): the miss counter sits exactly at
`max_missing = 45`. -/
def lostRunPenultimate : Tracker :=
  runUpdates (Tracker.init 1 none)
    ((some (0, 0), 0) :: (List.range 45).map (fun i => (none, (i : Int) + 1)))

/-- …and one more miss: the counter exceeds `max_missing`. -/
def lostRunFinal : Tracker :=
  (update lostRunPenultimate none 46).2

/-- Five accepted detections at the origin (state after 5 updates). -/
def fiveHitsState : Tracker :=
  runUpdates (Tracker.init 1 none)
    ((List.range 5).map (fun i => (some ((0 : ℚ), (0 : ℚ)), (i : Int))))

/-- …then three straight misses (state after 8 updates). -/
def threeMissState : Tracker :=
  runUpdates fiveHitsState ((List.range 3).map (fun i => (none, (i : Int) + 5)))

/-- State after a single initializing detection at the origin. -/
def oneHitState : Tracker :=
  (update (Tracker.init 1 none) (some (0, 0)) 0).2

/-- Descent: `(0,0)` then `(0,50)` accepted with no table bounds; the
estimated vertical velocity is strongly downward afterwards. -/
def descentState : Tracker :=
  (update oneHitState (some (0, 50)) 1).2

/-- A confirmed, initialized state sitting above the table with a
downward previous velocity, a zero covariance and a kinematic state whose
predicted vertical velocity is exactly `0` (`vy = 1`, `ay = -1`, `dt = 1`). -/
def hoverState : Tracker :=
  { fps := 1
    dt := 1
    table_bounds := some (0, 0, 100, 100)
    kf := { x := [50, 50, 0, 1, 0, -1], P := scaledEye 6 0 }
    initialized := true
    missing_frames := 0
    max_missing := 45
    mode := .tracking
    bounces := []
    prev_vy := 1
    last_bounce_frame := -30
    history := []
    confirm_window := [true, true, true, true, true]
    confirmed := true }

/-- Like `hoverState` but with `ay = -2`, so the predicted vertical
velocity is `-1 < 0`. -/
def dropState : Tracker :=
  { hoverState with kf := { x := [50, 50, 0, 1, 0, -2], P := scaledEye 6 0 } }

/-- Like `dropState` but far to the left of the table bounds
`(0, 0, 100, 100)`: the position `(-500, 50)` is outside even the
margined bounds. -/
def outsideState : Tracker :=
  { dropState with kf := { x := [-500, 50, 0, 1, 0, -2], P := scaledEye 6 0 } }

/-! ### Geometry of the table detector (`court_lines_detector.py`) -/

/-- Absolute value as computed in `_line_intersection` (`abs(cross)`). -/
def qabs (a : ℚ) : ℚ := if a < 0 then qneg a else a

/-- A Hough line segment `(x1, y1, x2, y2)`. -/
structure Seg where
  x1 : ℚ
  y1 : ℚ
  x2 : ℚ
  y2 : ℚ
  deriving Repr, DecidableEq

/-- `_seg_length` squared: lengths are only ever compared
(`max(..., key=_seg_length)`), and squaring is monotone, so the square
keeps the development in `ℚ`. -/
def segLen2 (s : Seg) : ℚ :=
  qadd (qmul (qsub s.x2 s.x1) (qsub s.x2 s.x1))
       (qmul (qsub s.y2 s.y1) (qsub s.y2 s.y1))

/-- `_line_intersection` (court_lines_detector.py lines 26-35): the
intersection of line `p1→p2` with line `p3→p4`, or `None` when the cross
product is below the `1e-8` tolerance (near-parallel lines). -/
def lineIntersection (p1 p2 p3 p4 : ℚ × ℚ) : Option (ℚ × ℚ) :=
  let d1 : ℚ × ℚ := (qsub p2.1 p1.1, qsub p2.2 p1.2)
  let d2 : ℚ × ℚ := (qsub p4.1 p3.1, qsub p4.2 p3.2)
  let cross := qsub (qmul d1.1 d2.2) (qmul d1.2 d2.1)
  if qabs cross < mkRat 1 100000000 then none
  else
    let x : ℚ × ℚ := (qsub p3.1 p1.1, qsub p3.2 p1.2)
    let t := qdiv (qsub (qmul x.1 d2.2) (qmul x.2 d2.1)) cross
    some (qadd p1.1 (qmul d1.1 t), qadd p1.2 (qmul d1.2 t))

/-- A line band produced by `_group_lines`: `[avg_pos, total_length,
segs]`. -/
structure LineGroup where
  pos : ℚ
  strength : ℚ
  segs : List Seg
  deriving Repr, DecidableEq

/-- Python's `max(segs, key=_seg_length)`: the first segment of maximal
length (groups built by `_group_lines` are never empty; `⟨0,0,0,0⟩` is
the out-of-domain default). -/
def longestSeg : List Seg → Seg
  | [] => ⟨0, 0, 0, 0⟩
  | s :: rest => rest.foldl (fun best c => if segLen2 best < segLen2 c then c else best) s

/-- `_line_intersection` applied to two segments' endpoint pairs. -/
def segInter (a b : Seg) : Option (ℚ × ℚ) :=
  lineIntersection (a.x1, a.y1) (a.x2, a.y2) (b.x1, b.y1) (b.x2, b.y2)

/-- The `all(c is not None for c in [tl, tr, bl, br])` choice of
`_strategy_find_table_lines`: intersection corners in TL, TR, BR, BL
order when all four intersections exist, otherwise the fallback quad. -/
def corners4 (tl tr bl br : Option (ℚ × ℚ)) (fallback : List (ℚ × ℚ)) :
    List (ℚ × ℚ) :=
  match tl, tr, bl, br with
  | some tl, some tr, some bl, some br => [tl, tr, br, bl]
  | _, _, _, _ => fallback

/-- The corner-construction step of `_strategy_find_table_lines`
(court_lines_detector.py lines 288-333): with both vertical bands found,
intersect the longest segments of the four chosen bands and fall back to
axis-aligned corners from the band centers if any intersection fails;
with a vertical band missing, use the surface-box x-extent instead.
The source's `left_x`/`right_x` variables are inlined into the two match
arms: they equal the band centers exactly when both vertical bands were
found, and the surface-box x-extent otherwise. -/
def buildCorners (top_line bot_line : LineGroup)
    (left_line right_line : Option LineGroup)
    (sx_left sx_right : ℚ) : List (ℚ × ℚ) :=
  match left_line, right_line with
  | some l, some r =>
    corners4 (segInter (longestSeg top_line.segs) (longestSeg l.segs))
             (segInter (longestSeg top_line.segs) (longestSeg r.segs))
             (segInter (longestSeg bot_line.segs) (longestSeg l.segs))
             (segInter (longestSeg bot_line.segs) (longestSeg r.segs))
             [(l.pos, top_line.pos), (r.pos, top_line.pos),
              (r.pos, bot_line.pos), (l.pos, bot_line.pos)]
  | _, _ =>
    [(sx_left, top_line.pos), (sx_right, top_line.pos),
     (sx_right, bot_line.pos), (sx_left, bot_line.pos)]

/-- A concrete top band: the segment `y = 0`, `0 ≤ x ≤ 10`. -/
def demoTopBand : LineGroup := ⟨0, 10, [⟨0, 0, 10, 0⟩]⟩

/-- A concrete bottom band: the segment `y = 10`. -/
def demoBotBand : LineGroup := ⟨10, 10, [⟨0, 10, 10, 10⟩]⟩

/-- A concrete left band: the segment `x = 0`. -/
def demoLeftBand : LineGroup := ⟨0, 10, [⟨0, 0, 0, 10⟩]⟩

/-- A concrete right band: the segment `x = 10`. -/
def demoRightBand : LineGroup := ⟨10, 10, [⟨10, 0, 10, 10⟩]⟩

/-- A band whose only segment is parallel to `demoTopBand`'s: every
intersection with the top band fails the cross-product tolerance. -/
def demoParallelBand : LineGroup := ⟨0, 10, [⟨0, 5, 10, 5⟩]⟩

/-! ### `_valid_table` (court_lines_detector.py lines 57-78)

The geometry validator takes square roots (`np.linalg.norm`), so this
part of the embedding lives in `ℝ`. -/

/-- Euclidean distance between two points (`np.linalg.norm(p - q)`). -/
noncomputable def ptDist (p q : ℝ × ℝ) : ℝ :=
  Real.sqrt ((p.1 - q.1) ^ 2 + (p.2 - q.2) ^ 2)

/-- `cv2.contourArea` of a 4-point contour: half the absolute shoelace
sum. -/
noncomputable def contourArea4 (c0 c1 c2 c3 : ℝ × ℝ) : ℝ :=
  |c0.1 * (c1.2 - c3.2) + c1.1 * (c2.2 - c0.2) +
   c2.1 * (c3.2 - c1.2) + c3.1 * (c0.2 - c2.2)| / 2

/-- `tw = (w1 + w2) / 2`: mean of the top and bottom edge lengths. -/
noncomputable def tableW (c0 c1 c2 c3 : ℝ × ℝ) : ℝ :=
  (ptDist c1 c0 + ptDist c2 c3) / 2

/-- `th = (h1 + h2) / 2`: mean of the left and right edge lengths. -/
noncomputable def tableH (c0 c1 c2 c3 : ℝ × ℝ) : ℝ :=
  (ptDist c3 c0 + ptDist c2 c1) / 2

/-- `aspect = tw / (th + 1e-6)`. -/
noncomputable def tableAspect (c0 c1 c2 c3 : ℝ × ℝ) : ℝ :=
  tableW c0 c1 c2 c3 / (tableH c0 c1 c2 c3 + 1 / 1000000)

/-- `_valid_table(corners, frame_h, frame_w, min_area, aspect_range)`:
the conjunction of all the non-rejecting conditions (the source returns
`False` at the first failing check).  The `corners is None or
len(corners) != 4` check is subsumed by the fixed 4-point signature. -/
def valid_table (c0 c1 c2 c3 : ℝ × ℝ) (frame_h frame_w : ℝ)
    (min_area ar_lo ar_hi : ℝ) : Prop :=
  min_area ≤ contourArea4 c0 c1 c2 c3 ∧
  40 ≤ tableW c0 c1 c2 c3 ∧
  20 ≤ tableH c0 c1 c2 c3 ∧
  ar_lo ≤ tableAspect c0 c1 c2 c3 ∧
  tableAspect c0 c1 c2 c3 ≤ ar_hi ∧
  (0 < frame_w → tableW c0 c1 c2 c3 ≤ frame_w * (1 / 2)) ∧
  (0 < frame_h → tableH c0 c1 c2 c3 ≤ frame_h * (2 / 5))

/-! ### The ball candidate extractor (`TableTennisBallDetector`) -/

/-- Mutable state of `TableTennisBallDetector`: the rolling grayscale
history, the adaptive background model and the frame counter. -/
structure DetectorState (Gray BG : Type) where
  prev_gray : Option Gray
  prev_prev_gray : Option Gray
  bg : BG
  frame_count : Nat

/-- `TableTennisBallDetector.__init__` (main.py lines 553-561): no
grayscale history, frame counter zero, fresh background model `bg0`. -/
def detectorInit (Gray BG : Type) (bg0 : BG) : DetectorState Gray BG :=
  { prev_gray := none, prev_prev_gray := none, bg := bg0, frame_count := 0 }

/-- `TableTennisBallDetector.detect` (main.py lines 563-730), with the
image pipeline abstracted: `toGray` models `cv2.cvtColor(..., GRAY)`,
`bgApply` the background-model update of `bg_subtractor.apply`, and
`pipeline` the whole ROI/motion/color/contour candidate extraction of
steps 0-5, fed with the grayscale history and background model as they
were *before* this call's history roll (as in the source, which builds
its masks from `self.prev_gray`/`self.prev_prev_gray` before
reassigning them).  The control flow kept from the source: the frame
counter is incremented, the history is rolled
(`prev_prev ← prev`, `prev ← gray`), and `None` is returned while
`frame_count < 3` — before any contour is considered. -/
def detect (Frame Gray BG Cand : Type) (toGray : Frame → Gray)
    (bgApply : BG → Frame → BG)
    (pipeline : Frame → Option Gray → Option Gray → BG → Option (ℚ × ℚ) →
      Option (List (ℚ × ℚ)) → ℚ → Bool → Option Cand)
    (s : DetectorState Gray BG) (frame : Frame) (prev_center : Option (ℚ × ℚ))
    (table_corners : Option (List (ℚ × ℚ))) (search_radius : ℚ)
    (desperate : Bool) : Option Cand × DetectorState Gray BG :=
  let gray := toGray frame
  let fc := s.frame_count + 1
  let s' : DetectorState Gray BG :=
    { prev_gray := some gray, prev_prev_gray := s.prev_gray,
      bg := bgApply s.bg frame, frame_count := fc }
  if fc < 3 then (none, s')
  else (pipeline frame s.prev_gray s.prev_prev_gray s.bg prev_center table_corners
          search_radius desperate, s')

end TTTrack

namespace TTTrack

/-! ### The rational helpers agree with the standard `ℚ` operations -/

theorem qadd_eq_add (a b : ℚ) : qadd a b = a + b := (Rat.add_def' a b).symm

theorem qsub_eq_sub (a b : ℚ) : qsub a b = a - b := (Rat.sub_def' a b).symm

theorem qmul_eq_mul (a b : ℚ) : qmul a b = a * b := by
  rw [qmul, Rat.mul_def, Rat.normalize_eq_mkRat]

theorem qdiv_eq_div (a b : ℚ) : qdiv a b = a / b := by
  rw [qdiv, Rat.div_def, Rat.inv_def]
  rcases eq_or_ne b.num 0 with h | h
  · rw [h, Int.mul_zero, Rat.divInt_zero, Rat.num_eq_zero.mp h]
    rw [show ((0 : ℚ).den : Int) = 1 from rfl]
    simp
  · conv_rhs => rw [← Rat.divInt_self a]
    rw [Rat.divInt_mul_divInt _ _ (Int.natCast_ne_zero.mpr a.den_nz) h]

theorem qneg_eq_neg (a : ℚ) : qneg a = -a := by
  rw [qneg, ← Rat.neg_mkRat, Rat.mkRat_self]

/-! ### Mode-ladder helper lemmas -/

theorem updateMode_zero (m : Mode) : updateMode 0 m = .tracking := by
  simp [updateMode]

theorem updateMode_searching (m : Mode) {k : Nat} (h5 : 5 ≤ k) (h11 : k ≤ 11) :
    updateMode k m = .searching := by
  unfold updateMode
  rw [if_neg (by omega), if_neg (by omega), if_pos h5]

theorem updateMode_desperate (m : Mode) {k : Nat} (h12 : 12 ≤ k) :
    updateMode k m = .desperate := by
  unfold updateMode
  rw [if_neg (by omega), if_pos h12]


theorem updateMode_small {k : Nat} (h1 : 1 ≤ k) (h4 : k ≤ 4) (m : Mode) :
    updateMode k m = m := by
  unfold updateMode
  rw [if_neg (by omega), if_neg (by omega), if_neg (by omega)]

theorem ladder_lt5 {k : Nat} (h : k < 5) : ladder k = .tracking := by
  unfold ladder; rw [if_pos h]

theorem ladder_mid {k : Nat} (h1 : 5 ≤ k) (h2 : k < 12) : ladder k = .searching := by
  unfold ladder; rw [if_neg (by omega), if_pos h2]

theorem ladder_ge12 {k : Nat} (h : 12 ≤ k) : ladder k = .desperate := by
  unfold ladder; rw [if_neg (by omega), if_neg (by omega)]

theorem updateMode_ladder_step (n : Nat) :
    updateMode (n + 1) (updateMode n (ladder n)) = ladder (n + 1) := by
  rcases Nat.lt_or_ge (n + 1) 5 with h1 | h1
  · rw [ladder_lt5 h1, ladder_lt5 (show n < 5 by omega)]
    rcases Nat.eq_zero_or_pos n with h0 | h0
    · subst h0
      rw [updateMode_zero, updateMode_small (by omega) (by omega)]
    · rw [updateMode_small h0 (by omega), updateMode_small (by omega) (by omega)]
  · rcases Nat.lt_or_ge (n + 1) 12 with h2 | h2
    · rw [ladder_mid h1 h2, updateMode_searching _ h1 (by omega)]
    · rw [ladder_ge12 h2, updateMode_desperate _ h2]

/-! ### Branch equations for `update` -/

theorem update_none_eq (s : Tracker) (f : Int) :
    update s none f = missStep (preUpdate s) f := rfl

theorem update_some_eq (s : Tracker) (z : ℚ × ℚ) (f : Int) :
    update s (some z) f =
      if (preUpdate s).initialized = false then initStep (preUpdate s) z f
      else if qmul (outlierThreshold (preUpdate s)) (outlierThreshold (preUpdate s)) <
          measDist2 s z then outlierStep (preUpdate s) f
      else acceptStep (preUpdate s) z f := rfl

theorem update_init_eq (s : Tracker) (z : ℚ × ℚ) (f : Int)
    (h : s.initialized = false) :
    update s (some z) f = initStep (preUpdate s) z f := by
  rw [update_some_eq, if_pos (show (preUpdate s).initialized = false from h)]

theorem update_outlier_eq (s : Tracker) (z : ℚ × ℚ) (f : Int)
    (h1 : s.initialized = true)
    (h2 : qmul (outlierThreshold (preUpdate s)) (outlierThreshold (preUpdate s)) <
      measDist2 s z) :
    update s (some z) f = outlierStep (preUpdate s) f := by
  rw [update_some_eq,
    if_neg (show ¬ (preUpdate s).initialized = false by simp [preUpdate, h1]), if_pos h2]

theorem update_accept_eq (s : Tracker) (z : ℚ × ℚ) (f : Int)
    (h1 : s.initialized = true)
    (h2 : ¬ qmul (outlierThreshold (preUpdate s)) (outlierThreshold (preUpdate s)) <
      measDist2 s z) :
    update s (some z) f = acceptStep (preUpdate s) z f := by
  rw [update_some_eq,
    if_neg (show ¬ (preUpdate s).initialized = false by simp [preUpdate, h1]), if_neg h2]

/-! ### Structural lemmas for the branch functions -/

theorem detectTail_fst (s : Tracker) (f : Int) :
    (detectTail s f).1 =
      { position := if confirmRule s.confirm_window s.confirmed then some (kfPos s.kf) else none
        velocity := some (kfVel s.kf)
        is_bounce := bounceGate s.table_bounds s.prev_vy s.last_bounce_frame
          (kfPos s.kf) (kfVel s.kf).2 f
        is_predicted := false
        mode := s.mode } := by
  simp only [detectTail]
  split <;> split <;> rfl

theorem detectTail_snd_confirmed (s : Tracker) (f : Int) :
    (detectTail s f).2.confirmed = confirmRule s.confirm_window s.confirmed := by
  simp only [detectTail]

theorem detectTail_snd_initialized (s : Tracker) (f : Int) :
    (detectTail s f).2.initialized = s.initialized := by
  simp only [detectTail]
  split <;> rfl

theorem detectTail_snd_kf (s : Tracker) (f : Int) :
    (detectTail s f).2.kf = s.kf := by
  simp only [detectTail]
  split <;> rfl

theorem detectTail_snd_missing (s : Tracker) (f : Int) :
    (detectTail s f).2.missing_frames = s.missing_frames := by
  simp only [detectTail]
  split <;> rfl

theorem detectTail_snd_bounces (s : Tracker) (f : Int) :
    (detectTail s f).2.bounces =
      (if bounceGate s.table_bounds s.prev_vy s.last_bounce_frame
          (kfPos s.kf) (kfVel s.kf).2 f
       then s.bounces ++ [(f, (kfPos s.kf).1, (kfPos s.kf).2)]
       else s.bounces) := by
  simp only [detectTail]
  split <;> rfl

theorem missStep_fields (s : Tracker) (f : Int) (h : s.initialized = true) :
    (missStep s f).2.initialized = true ∧
    (missStep s f).2.missing_frames = s.missing_frames + 1 ∧
    (missStep s f).2.mode = updateMode (s.missing_frames + 1) s.mode ∧
    (missStep s f).2.confirm_window = pushWindow s.confirm_window false := by
  simp only [missStep, h]
  split
  · rename_i hh; simp at hh
  · split <;> exact ⟨rfl, rfl, rfl, rfl⟩

/-- One no-detection update of an initialized tracker: the control fields
change exactly as in main.py lines 393-419, regardless of which inner
branch is taken. -/
theorem update_none_fields (s : Tracker) (f : Int) (h : s.initialized = true) :
    (update s none f).2.initialized = true ∧
    (update s none f).2.missing_frames = s.missing_frames + 1 ∧
    (update s none f).2.mode =
      updateMode (s.missing_frames + 1) (updateMode s.missing_frames s.mode) ∧
    (update s none f).2.confirm_window = pushWindow s.confirm_window false := by
  rw [update_none_eq]
  exact missStep_fields (preUpdate s) f h

/-- Invariant of a run of misses started from a freshly-tracking state. -/
theorem missRun_ladder (s : Tracker) (f : Int) (hinit : s.initialized = true)
    (hm : s.missing_frames = 0) (hmode : s.mode = Mode.tracking) :
    ∀ k, (missRun s f k).initialized = true ∧
         (missRun s f k).missing_frames = k ∧
         (missRun s f k).mode = ladder k := by
  intro k
  induction k with
  | zero =>
    refine ⟨hinit, hm, ?_⟩
    rw [missRun, hmode]
    simp [ladder]
  | succ n ih =>
    obtain ⟨h1, h2, h3⟩ := ih
    have step := update_none_fields (missRun s f n) (f + n) h1
    refine ⟨step.1, ?_, ?_⟩
    · rw [missRun, step.2.1, h2]
    · rw [missRun, step.2.2.1, h2, h3, updateMode_ladder_step]

/-- C5: the mode transition function maps a zero miss counter to Tracking,
counters 5–11 to Searching and counters ≥ 12 to Desperate; and over a
contiguous run of misses started from Tracking, the mode after the k-th
miss is Tracking for k < 5, Searching for 5 ≤ k < 12 and Desperate for
k ≥ 12 (the monotone ladder `ladder`). -/
theorem mode_ladder_correct :
    (∀ m : Mode, updateMode 0 m = Mode.tracking) ∧
    (∀ (m : Mode) (k : Nat), 5 ≤ k → k ≤ 11 → updateMode k m = Mode.searching) ∧
    (∀ (m : Mode) (k : Nat), 12 ≤ k → updateMode k m = Mode.desperate) ∧
    (∀ (s : Tracker) (f : Int), s.initialized = true → s.missing_frames = 0 →
      s.mode = Mode.tracking → ∀ k, (missRun s f k).mode = ladder k) := by
  refine ⟨updateMode_zero, fun m k h5 h11 => updateMode_searching m h5 h11,
    fun m k h12 => updateMode_desperate m h12, fun s f h1 h2 h3 k => ?_⟩
  exact (missRun_ladder s f h1 h2 h3 k).2.2

set_option maxRecDepth 20000 in
/-- C5 witness: the ladder at concrete counters, and a concrete 13-miss
run from an initialized tracker ends in Desperate. -/
theorem mode_ladder_correct_witness :
    updateMode 7 Mode.tracking = Mode.searching ∧
    updateMode 30 Mode.searching = Mode.desperate ∧
    (missRun oneHitState 1 13).mode = ladder 13 := by
  have h : oneHitState.initialized = true ∧ oneHitState.missing_frames = 0 ∧
      oneHitState.mode = Mode.tracking := by decide
  exact ⟨mode_ladder_correct.2.1 _ 7 (by decide) (by decide),
         mode_ladder_correct.2.2.1 _ 30 (by decide),
         mode_ladder_correct.2.2.2 oneHitState 1 h.1 h.2.1 h.2.2 13⟩

/-! ### C1: what actually happens past `max_missing` -/

set_option maxRecDepth 20000 in
/-- C1 counterexample: a tracker that has exceeded `max_missing = 45`
consecutive misses still has its `initialized` flag set — `update` never
clears it, so the tracker does not transition back to the Uninitialized
state and the estimator state (velocity, acceleration) is retained. -/
theorem lostRun_keeps_initialized :
    45 < lostRunFinal.missing_frames ∧ lostRunFinal.initialized = true := by
  decide

/-- C1 (amended): once the consecutive-miss counter exceeds
`max_missing = 45`, a no-detection update reports `position = none` and
`velocity = none`, marks the result predicted, clears only the
`confirmed` flag and stops advancing the estimator; the `initialized`
flag stays set and the filter state is kept unchanged, so the next
accepted detection corrects the retained estimator instead of
re-initializing it from scratch. -/
theorem overMax_soft_reset (s : Tracker) (f : Int)
    (hinit : s.initialized = true) (hmax : s.max_missing = 45)
    (hmiss : 45 ≤ s.missing_frames) :
    (update s none f).1.position = none ∧
    (update s none f).1.velocity = none ∧
    (update s none f).1.is_predicted = true ∧
    (update s none f).2.initialized = true ∧
    (update s none f).2.kf = s.kf ∧
    (update s none f).2.confirmed = false ∧
    (update s none f).2.missing_frames = s.missing_frames + 1 ∧
    (update s none f).2.mode = Mode.desperate := by
  rw [update_none_eq]
  simp only [missStep, preUpdate, hinit, hmax]
  split
  · rename_i hh; simp at hh
  · rw [if_pos (show (45 : Nat) < s.missing_frames + 1 by omega)]
    exact ⟨rfl, rfl, rfl, rfl, rfl, rfl, rfl,
      updateMode_desperate _ (show 12 ≤ s.missing_frames + 1 by omega)⟩

set_option maxRecDepth 20000 in
/-- C1 witness: the amended behavior at the concrete 45-miss state. -/
theorem overMax_soft_reset_witness :
    (update lostRunPenultimate none 46).1.position = none ∧
    (update lostRunPenultimate none 46).1.velocity = none ∧
    (update lostRunPenultimate none 46).1.is_predicted = true ∧
    (update lostRunPenultimate none 46).2.initialized = true ∧
    (update lostRunPenultimate none 46).2.kf = lostRunPenultimate.kf ∧
    (update lostRunPenultimate none 46).2.confirmed = false ∧
    (update lostRunPenultimate none 46).2.missing_frames =
      lostRunPenultimate.missing_frames + 1 ∧
    (update lostRunPenultimate none 46).2.mode = Mode.desperate := by
  have h : lostRunPenultimate.initialized = true ∧
      lostRunPenultimate.max_missing = 45 ∧
      45 ≤ lostRunPenultimate.missing_frames := by decide
  exact overMax_soft_reset lostRunPenultimate 46 h.1 h.2.1 h.2.2

/-! ### C2: the confirmation gate -/

theorem missStep_pos_none_or_confirmed (s : Tracker) (f : Int) :
    (missStep s f).1.position = none ∨ (missStep s f).2.confirmed = true := by
  simp only [missStep]
  split
  · left; rfl
  · split
    · left; rfl
    · by_cases hc : s.confirmed = true
      · right; exact hc
      · left
        simp only [Bool.not_eq_true] at hc
        simp [hc]

theorem outlierStep_pos_none_or_confirmed (s : Tracker) (f : Int) :
    (outlierStep s f).1.position = none ∨ (outlierStep s f).2.confirmed = true := by
  simp only [outlierStep]
  by_cases hc : s.confirmed = true
  · right; exact hc
  · left
    exact if_neg hc

theorem detectTail_pos_none_or_confirmed (s : Tracker) (f : Int) :
    (detectTail s f).1.position = none ∨ (detectTail s f).2.confirmed = true := by
  by_cases hc : confirmRule s.confirm_window s.confirmed = true
  · right
    rw [detectTail_snd_confirmed]
    exact hc
  · left
    rw [detectTail_fst]
    exact if_neg hc

theorem update_pos_none_or_confirmed (s : Tracker) (d : Option (ℚ × ℚ)) (f : Int) :
    (update s d f).1.position = none ∨ (update s d f).2.confirmed = true := by
  cases d with
  | none =>
    rw [update_none_eq]
    exact missStep_pos_none_or_confirmed _ _
  | some z =>
    rw [update_some_eq]
    split
    · simp only [initStep]
      exact detectTail_pos_none_or_confirmed _ _
    · split
      · exact outlierStep_pos_none_or_confirmed _ _
      · simp only [acceptStep]
        exact detectTail_pos_none_or_confirmed _ _

set_option maxRecDepth 20000 in
/-- C2 counterexample: five accepted detections (confirming the tracker)
followed by four straight misses leave the 5-slot window with a single
success, yet `confirmed` is still `true` and the fourth miss still
reports a position — `confirmed` is not re-evaluated on missed frames,
contradicting the claim that it drops as soon as the window holds at most
one success. -/
theorem stale_confirmation_after_misses :
    (update threeMissState none 8).2.confirm_window =
      [true, false, false, false, false] ∧
    (update threeMissState none 8).2.confirmed = true ∧
    (update threeMissState none 8).1.position = some (0, 0) := by
  decide

/-- C2 (amended): `confirmed` is recomputed only by updates that carry an
accepted (or initializing) detection — there it follows the 3-of-5 /
at-most-1-of-5 window rule — while a missed frame below the reset
threshold leaves `confirmed` untouched (so 4 misses after a confirmed
streak leave it `true` until the next accepted detection); and whenever
the reported `confirmed` is false the result's position is `none`. -/
theorem confirmation_gate_correct :
    (∀ (s : Tracker) (d : Option (ℚ × ℚ)) (f : Int),
        (update s d f).2.confirmed = false → (update s d f).1.position = none) ∧
    (∀ (s : Tracker) (f : Int), s.initialized = true →
        s.missing_frames + 1 ≤ s.max_missing →
        (update s none f).2.confirmed = s.confirmed) ∧
    (∀ (s : Tracker) (z : ℚ × ℚ) (f : Int), s.initialized = true →
        ¬ qmul (outlierThreshold (preUpdate s)) (outlierThreshold (preUpdate s)) <
          measDist2 s z →
        (update s (some z) f).2.confirmed =
          confirmRule (pushWindow s.confirm_window true) s.confirmed) := by
  refine ⟨fun s d f h => ?_, fun s f h1 hle => ?_, fun s z f h1 h2 => ?_⟩
  · rcases update_pos_none_or_confirmed s d f with hp | hcf
    · exact hp
    · rw [h] at hcf
      simp at hcf
  · rw [update_none_eq]
    simp only [missStep, preUpdate, h1]
    split
    · rename_i hh; simp at hh
    · rw [if_neg (by omega)]
  · rw [update_accept_eq s z f h1 h2]
    simp only [acceptStep]
    rw [detectTail_snd_confirmed]
    rfl

set_option maxRecDepth 20000 in
/-- C2 witness: the amended rules at the concrete run — a miss leaves
`confirmed` untouched; an accepted detection recomputes it from the
pushed window. -/
theorem confirmation_gate_correct_witness :
    (update threeMissState none 8).2.confirmed = threeMissState.confirmed ∧
    (update fiveHitsState (some (0, 0)) 5).2.confirmed =
      confirmRule (pushWindow fiveHitsState.confirm_window true)
        fiveHitsState.confirmed := by
  have h1 : threeMissState.initialized = true ∧
      threeMissState.missing_frames + 1 ≤ threeMissState.max_missing := by decide
  have h2 : fiveHitsState.initialized = true := by decide
  have h3 : ¬ qmul (outlierThreshold (preUpdate fiveHitsState))
      (outlierThreshold (preUpdate fiveHitsState)) <
      measDist2 fiveHitsState (0, 0) := by decide
  exact ⟨confirmation_gate_correct.2.1 _ _ h1.1 h1.2,
         confirmation_gate_correct.2.2 _ _ 5 h2 h3⟩

/-! ### C6: outlier rejection -/

set_option maxRecDepth 20000 in
/-- C6 counterexample: an initialized but not-yet-confirmed tracker that
receives an outlier reports `position = none`, not the pure-prediction
position `(0, 0)` — the claim's "the position in the result equals the
pure-prediction position" fails for unconfirmed states. -/
theorem unconfirmed_outlier_reports_none :
    oneHitState.confirmed = false ∧
    qmul (outlierThreshold (preUpdate oneHitState)) (outlierThreshold (preUpdate oneHitState)) <
      measDist2 oneHitState (1000, 1000) ∧
    kfPos (kfPredict oneHitState.dt oneHitState.kf) = (0, 0) ∧
    (update oneHitState (some (1000, 1000)) 1).1.position = none := by
  decide

/-- C6 (amended): a measurement farther from the prediction than the
current mode's outlier threshold is rejected: the estimator is advanced
by prediction only (never corrected with the outlier), the reported
position is the pure-prediction position when the tracker is confirmed
and `none` otherwise, the velocity is the predicted velocity,
`missing_frames` is incremented, and the result is flagged
`is_predicted = true` with `is_bounce = false`. -/
theorem outlier_rejected_predict_only (s : Tracker) (z : ℚ × ℚ) (f : Int)
    (hinit : s.initialized = true)
    (hout : qmul (outlierThreshold (preUpdate s)) (outlierThreshold (preUpdate s)) <
      measDist2 s z) :
    (update s (some z) f).2.kf = kfPredict s.dt s.kf ∧
    (update s (some z) f).1.position =
      (if s.confirmed then some (kfPos (kfPredict s.dt s.kf)) else none) ∧
    (update s (some z) f).1.velocity = some (kfVel (kfPredict s.dt s.kf)) ∧
    (update s (some z) f).1.is_bounce = false ∧
    (update s (some z) f).1.is_predicted = true ∧
    (update s (some z) f).2.missing_frames = s.missing_frames + 1 ∧
    (update s (some z) f).2.confirmed = s.confirmed := by
  rw [update_outlier_eq s z f hinit hout]
  simp only [outlierStep, preUpdate]
  simp

set_option maxRecDepth 20000 in
/-- C6 witness: the amended behavior at the concrete outlier update. -/
theorem outlier_rejected_predict_only_witness :
    (update oneHitState (some (1000, 1000)) 1).2.kf =
      kfPredict oneHitState.dt oneHitState.kf ∧
    (update oneHitState (some (1000, 1000)) 1).1.position =
      (if oneHitState.confirmed then
        some (kfPos (kfPredict oneHitState.dt oneHitState.kf)) else none) ∧
    (update oneHitState (some (1000, 1000)) 1).1.velocity =
      some (kfVel (kfPredict oneHitState.dt oneHitState.kf)) ∧
    (update oneHitState (some (1000, 1000)) 1).1.is_bounce = false ∧
    (update oneHitState (some (1000, 1000)) 1).1.is_predicted = true ∧
    (update oneHitState (some (1000, 1000)) 1).2.missing_frames =
      oneHitState.missing_frames + 1 ∧
    (update oneHitState (some (1000, 1000)) 1).2.confirmed = oneHitState.confirmed := by
  have h1 : oneHitState.initialized = true := by decide
  have h2 : qmul (outlierThreshold (preUpdate oneHitState))
      (outlierThreshold (preUpdate oneHitState)) <
      measDist2 oneHitState (1000, 1000) := by decide
  exact outlier_rejected_predict_only oneHitState (1000, 1000) 1 h1 h2

/-! ### C3 and C4: the bounce gate -/

set_option maxRecDepth 20000 in
/-- C3 counterexample: a tracker constructed with `table_bounds = none`
still declares bounces — after two downward detections build a clearly
downward velocity, an accepted detection back at the origin reverses the
vertical velocity and `is_bounce` is reported `true`, appending a bounce
event.  Bounce detection is not disabled without table bounds. -/
theorem bounce_without_bounds :
    descentState.table_bounds = none ∧
    mkRat 3 10 < descentState.prev_vy ∧
    (update descentState (some (0, 0)) 2).1.is_bounce = true ∧
    (update descentState (some (0, 0)) 2).2.bounces ≠ [] := by
  decide

/-- C3 (amended): with `table_bounds = none`, the on-table test is
vacuously true, so an accepted measurement declares a bounce exactly when
the previous vertical velocity was clearly downward (`> 0.3`), the
corrected vertical velocity is strictly upward, and more than 8 frames
have elapsed since the last declared bounce; the event is appended
exactly when the result reports a bounce. -/
theorem no_bounds_bounce_still_enabled (s : Tracker) (z : ℚ × ℚ) (f : Int)
    (hinit : s.initialized = true) (hnb : s.table_bounds = none)
    (hacc : ¬ qmul (outlierThreshold (preUpdate s)) (outlierThreshold (preUpdate s)) <
      measDist2 s z) :
    ((update s (some z) f).1.is_bounce = true ↔
      (mkRat 3 10 < s.prev_vy ∧
       (kfVel (kfUpdate (kfPredict s.dt s.kf) z)).2 < 0 ∧
       8 < f - s.last_bounce_frame)) ∧
    ((update s (some z) f).1.is_bounce = true →
      (update s (some z) f).2.bounces = s.bounces ++
        [(f, (kfPos (kfUpdate (kfPredict s.dt s.kf) z)).1,
             (kfPos (kfUpdate (kfPredict s.dt s.kf) z)).2)]) ∧
    ((update s (some z) f).1.is_bounce = false →
      (update s (some z) f).2.bounces = s.bounces) := by
  rw [update_accept_eq s z f hinit hacc]
  simp only [acceptStep, preUpdate]
  refine ⟨?_, fun hb => ?_, fun hb => ?_⟩
  · simp only [detectTail_fst, hnb, bounceGate, Bool.and_eq_true, decide_eq_true_eq,
      Bool.and_true, and_assoc]
  · simp only [detectTail_fst] at hb
    simp only [detectTail_snd_bounces, if_pos hb]
  · simp only [detectTail_fst] at hb
    simp only [detectTail_snd_bounces]
    rw [if_neg (by simp [hb])]

set_option maxRecDepth 20000 in
/-- C3 witness: the amended bounce rule applied at the concrete no-bounds
run, concluding that the reversal registers a bounce. -/
theorem no_bounds_bounce_still_enabled_witness :
    (update descentState (some (0, 0)) 2).1.is_bounce = true ∧
    (update descentState (some (0, 0)) 2).2.bounces = descentState.bounces ++
      [(2, (kfPos (kfUpdate (kfPredict descentState.dt descentState.kf) (0, 0))).1,
          (kfPos (kfUpdate (kfPredict descentState.dt descentState.kf) (0, 0))).2)] := by
  have h1 : descentState.initialized = true := by decide
  have h2 : descentState.table_bounds = none := by decide
  have h3 : ¬ qmul (outlierThreshold (preUpdate descentState))
      (outlierThreshold (preUpdate descentState)) <
      measDist2 descentState (0, 0) := by decide
  have main := no_bounds_bounce_still_enabled descentState (0, 0) 2 h1 h2 h3
  have hb : (update descentState (some (0, 0)) 2).1.is_bounce = true :=
    main.1.mpr (by decide)
  exact ⟨hb, main.2.1 hb⟩

set_option maxRecDepth 20000 in
/-- C4 counterexample: an accepted measurement for which the previous
vertical velocity is clearly downward (`1 > 0.3`), the corrected vertical
velocity is exactly `0` (non-downward), the corrected position
`(50, 101/2)` lies inside the margined table bounds `(0, 0, 100, 100)`,
and the frame gap is far above 8 — yet no bounce is declared, because
the source requires the current vertical velocity to be strictly
negative (`cur_vy < 0`), not merely non-downward. -/
theorem zero_vy_reversal_no_bounce :
    hoverState.table_bounds = some (0, 0, 100, 100) ∧
    mkRat 3 10 < hoverState.prev_vy ∧
    (kfVel (kfUpdate (kfPredict hoverState.dt hoverState.kf) (50, mkRat 101 2))).2 = 0 ∧
    kfPos (kfUpdate (kfPredict hoverState.dt hoverState.kf) (50, mkRat 101 2)) =
      (50, mkRat 101 2) ∧
    8 < (10 : Int) - hoverState.last_bounce_frame ∧
    ¬ qmul (outlierThreshold (preUpdate hoverState)) (outlierThreshold (preUpdate hoverState)) <
      measDist2 hoverState (50, mkRat 101 2) ∧
    (update hoverState (some (50, mkRat 101 2)) 10).1.is_bounce = false ∧
    (update hoverState (some (50, mkRat 101 2)) 10).2.bounces = [] := by
  decide

/-- C4 (amended): with known table bounds `(tx1, ty1, tx2, ty2)`, an
accepted measurement declares a bounce (and appends exactly one event)
exactly when the previous vertical velocity is clearly downward
(`> 0.3`), the corrected vertical velocity is strictly upward
(`cur_vy < 0` — not merely non-downward), the corrected position lies
within the bounds extended outward by 10% of the table width and 15% of
its height, and more than 8 frames have elapsed since the last declared
bounce; a reversal with the position outside the margined bounds never
registers a bounce. -/
theorem bounce_gate_correct (s : Tracker) (z : ℚ × ℚ) (f : Int)
    (tx1 ty1 tx2 ty2 : ℚ)
    (hinit : s.initialized = true)
    (hbnd : s.table_bounds = some (tx1, ty1, tx2, ty2))
    (hacc : ¬ qmul (outlierThreshold (preUpdate s)) (outlierThreshold (preUpdate s)) <
      measDist2 s z) :
    ((update s (some z) f).1.is_bounce = true ↔
      (mkRat 3 10 < s.prev_vy ∧
       (kfVel (kfUpdate (kfPredict s.dt s.kf) z)).2 < 0 ∧
       (qsub tx1 (qmul (qsub tx2 tx1) (mkRat 1 10)) ≤
          (kfPos (kfUpdate (kfPredict s.dt s.kf) z)).1 ∧
        (kfPos (kfUpdate (kfPredict s.dt s.kf) z)).1 ≤
          qadd tx2 (qmul (qsub tx2 tx1) (mkRat 1 10)) ∧
        qsub ty1 (qmul (qsub ty2 ty1) (mkRat 3 20)) ≤
          (kfPos (kfUpdate (kfPredict s.dt s.kf) z)).2 ∧
        (kfPos (kfUpdate (kfPredict s.dt s.kf) z)).2 ≤
          qadd ty2 (qmul (qsub ty2 ty1) (mkRat 3 20))) ∧
       8 < f - s.last_bounce_frame)) ∧
    ((update s (some z) f).1.is_bounce = true →
      (update s (some z) f).2.bounces = s.bounces ++
        [(f, (kfPos (kfUpdate (kfPredict s.dt s.kf) z)).1,
             (kfPos (kfUpdate (kfPredict s.dt s.kf) z)).2)]) ∧
    ((update s (some z) f).1.is_bounce = false →
      (update s (some z) f).2.bounces = s.bounces) := by
  rw [update_accept_eq s z f hinit hacc]
  simp only [acceptStep, preUpdate]
  refine ⟨?_, fun hb => ?_, fun hb => ?_⟩
  · simp only [detectTail_fst, hbnd, bounceGate, Bool.and_eq_true, decide_eq_true_eq,
      and_assoc]
  · simp only [detectTail_fst] at hb
    simp only [detectTail_snd_bounces, if_pos hb]
  · simp only [detectTail_fst] at hb
    simp only [detectTail_snd_bounces]
    rw [if_neg (by simp [hb])]

set_option maxRecDepth 20000 in
/-- C4 witness: the amended gate at two concrete accepted updates — a
strict upward reversal inside the margined bounds registers exactly one
bounce event; the same reversal far outside the bounds registers none. -/
theorem bounce_gate_correct_witness :
    (update dropState (some (50, 50)) 10).1.is_bounce = true ∧
    (update dropState (some (50, 50)) 10).2.bounces = dropState.bounces ++
      [(10, (kfPos (kfUpdate (kfPredict dropState.dt dropState.kf) (50, 50))).1,
           (kfPos (kfUpdate (kfPredict dropState.dt dropState.kf) (50, 50))).2)] ∧
    (update outsideState (some (-500, 50)) 10).1.is_bounce = false ∧
    (update outsideState (some (-500, 50)) 10).2.bounces = outsideState.bounces := by
  have d1 : dropState.initialized = true := by decide
  have d3 : ¬ qmul (outlierThreshold (preUpdate dropState))
      (outlierThreshold (preUpdate dropState)) <
      measDist2 dropState (50, 50) := by decide
  have o1 : outsideState.initialized = true := by decide
  have o3 : ¬ qmul (outlierThreshold (preUpdate outsideState))
      (outlierThreshold (preUpdate outsideState)) <
      measDist2 outsideState (-500, 50) := by decide
  have md := bounce_gate_correct dropState (50, 50) 10 0 0 100 100 d1 (by decide) d3
  have mo := bounce_gate_correct outsideState (-500, 50) 10 0 0 100 100 o1 (by decide) o3
  have hd : (update dropState (some (50, 50)) 10).1.is_bounce = true :=
    md.1.mpr (by decide)
  have ho : (update outsideState (some (-500, 50)) 10).1.is_bounce = false := by
    rcases Bool.eq_false_or_eq_true ((update outsideState (some (-500, 50)) 10).1.is_bounce)
      with h | h
    · exact absurd (mo.1.mp h) (by decide)
    · exact h
  exact ⟨hd, md.2.1 hd, ho, mo.2.2 ho⟩

/-! ### C9: corner intersection and its fallbacks -/

theorem buildCorners_some_eq (top bot l r : LineGroup) (sxl sxr : ℚ) :
    buildCorners top bot (some l) (some r) sxl sxr =
      corners4 (segInter (longestSeg top.segs) (longestSeg l.segs))
               (segInter (longestSeg top.segs) (longestSeg r.segs))
               (segInter (longestSeg bot.segs) (longestSeg l.segs))
               (segInter (longestSeg bot.segs) (longestSeg r.segs))
               [(l.pos, top.pos), (r.pos, top.pos),
                (r.pos, bot.pos), (l.pos, bot.pos)] := rfl

theorem corners4_none (a b c d : Option (ℚ × ℚ)) (fb : List (ℚ × ℚ))
    (h : a = none ∨ b = none ∨ c = none ∨ d = none) :
    corners4 a b c d fb = fb := by
  cases a <;> cases b <;> cases c <;> cases d <;> simp only [corners4] <;>
    rcases h with h | h | h | h <;> simp at h

/-- C9: in the surface+lines strategy the 4 corners come from
intersecting the longest segments of the chosen top/bottom/left/right
bands (in TL, TR, BR, BL order); if any of the four pairwise
intersections fails (cross product below the `1e-8` tolerance) the
strategy instead returns axis-aligned corners built from the band
centers, and if a left/right vertical band is missing it uses the
surface-box x-extent for left/right. -/
theorem corner_intersection_with_fallback :
    (∀ (top bot l r : LineGroup) (sxl sxr : ℚ) (tl tr bl br : ℚ × ℚ),
      segInter (longestSeg top.segs) (longestSeg l.segs) = some tl →
      segInter (longestSeg top.segs) (longestSeg r.segs) = some tr →
      segInter (longestSeg bot.segs) (longestSeg l.segs) = some bl →
      segInter (longestSeg bot.segs) (longestSeg r.segs) = some br →
      buildCorners top bot (some l) (some r) sxl sxr = [tl, tr, br, bl]) ∧
    (∀ (top bot l r : LineGroup) (sxl sxr : ℚ),
      (segInter (longestSeg top.segs) (longestSeg l.segs) = none ∨
       segInter (longestSeg top.segs) (longestSeg r.segs) = none ∨
       segInter (longestSeg bot.segs) (longestSeg l.segs) = none ∨
       segInter (longestSeg bot.segs) (longestSeg r.segs) = none) →
      buildCorners top bot (some l) (some r) sxl sxr =
        [(l.pos, top.pos), (r.pos, top.pos), (r.pos, bot.pos), (l.pos, bot.pos)]) ∧
    (∀ (top bot : LineGroup) (l r : Option LineGroup) (sxl sxr : ℚ),
      l = none ∨ r = none →
      buildCorners top bot l r sxl sxr =
        [(sxl, top.pos), (sxr, top.pos), (sxr, bot.pos), (sxl, bot.pos)]) := by
  refine ⟨fun top bot l r sxl sxr tl tr bl br h1 h2 h3 h4 => ?_,
          fun top bot l r sxl sxr h => ?_,
          fun top bot l r sxl sxr h => ?_⟩
  · rw [buildCorners_some_eq, h1, h2, h3, h4]
    rfl
  · rw [buildCorners_some_eq, corners4_none _ _ _ _ _ h]
  · rcases h with h | h
    · subst h; rfl
    · subst h; cases l <;> rfl

set_option maxRecDepth 20000 in
/-- C9 witness: concrete bands — four successful intersections give the
intersection corners; a band parallel to the top band forces the
center-based fallback; a missing vertical band forces the surface-box
fallback. -/
theorem corner_intersection_with_fallback_witness :
    buildCorners demoTopBand demoBotBand (some demoLeftBand) (some demoRightBand) 0 10 =
      [(0, 0), (10, 0), (10, 10), (0, 10)] ∧
    buildCorners demoTopBand demoBotBand (some demoParallelBand) (some demoRightBand) 0 10 =
      [(demoParallelBand.pos, demoTopBand.pos), (demoRightBand.pos, demoTopBand.pos),
       (demoRightBand.pos, demoBotBand.pos), (demoParallelBand.pos, demoBotBand.pos)] ∧
    buildCorners demoTopBand demoBotBand none (some demoRightBand) 0 10 =
      [(0, demoTopBand.pos), (10, demoTopBand.pos),
       (10, demoBotBand.pos), (0, demoBotBand.pos)] := by
  refine ⟨corner_intersection_with_fallback.1 demoTopBand demoBotBand demoLeftBand
      demoRightBand 0 10 (0, 0) (10, 0) (0, 10) (10, 10) ?_ ?_ ?_ ?_,
    corner_intersection_with_fallback.2.1 demoTopBand demoBotBand demoParallelBand
      demoRightBand 0 10 (Or.inl ?_),
    corner_intersection_with_fallback.2.2 demoTopBand demoBotBand none
      (some demoRightBand) 0 10 (Or.inl rfl)⟩ <;> decide

/-! ### C7: the geometry validator -/

theorem ptDist_horiz (a b y : ℝ) : ptDist (a, y) (b, y) = |a - b| := by
  unfold ptDist
  simp [Real.sqrt_sq_eq_abs]

theorem ptDist_vert (x a b : ℝ) : ptDist (x, a) (x, b) = |a - b| := by
  unfold ptDist
  simp [Real.sqrt_sq_eq_abs]

/-- C7: the validator rejects every quad whose aspect ratio falls outside
`[1.3, 5.5]`, or whose contour area is below the minimum `2000`, or whose
mean width exceeds half the frame width or mean height exceeds 40% of the
frame height; and it accepts the synthetic axis-aligned quad
`(0,0)-(180,0)-(180,100)-(0,100)` (aspect ≈ 1.8) in a 1280×720 frame. -/
theorem validator_soundness :
    (∀ (c0 c1 c2 c3 : ℝ × ℝ) (fh fw : ℝ),
      ((tableAspect c0 c1 c2 c3 < 13 / 10 ∨ 11 / 2 < tableAspect c0 c1 c2 c3) ∨
       contourArea4 c0 c1 c2 c3 < 2000 ∨
       (0 < fw ∧ fw * (1 / 2) < tableW c0 c1 c2 c3) ∨
       (0 < fh ∧ fh * (2 / 5) < tableH c0 c1 c2 c3)) →
      ¬ valid_table c0 c1 c2 c3 fh fw 2000 (13 / 10) (11 / 2)) ∧
    valid_table (0, 0) (180, 0) (180, 100) (0, 100) 720 1280 2000 (13 / 10) (11 / 2) := by
  constructor
  · rintro c0 c1 c2 c3 fh fw h ⟨ha, hw, hh, hlo, hhi, hcw, hch⟩
    rcases h with (h | h) | h | ⟨hfw, h⟩ | ⟨hfh, h⟩
    · linarith
    · linarith
    · linarith
    · linarith [hcw hfw]
    · linarith [hch hfh]
  · have hw : tableW (0, 0) (180, 0) (180, 100) (0, 100) = 180 := by
      unfold tableW
      rw [ptDist_horiz, ptDist_horiz]
      norm_num
    have hh : tableH (0, 0) (180, 0) (180, 100) (0, 100) = 100 := by
      unfold tableH
      rw [ptDist_vert, ptDist_vert]
      norm_num
    have ha : contourArea4 (0, 0) (180, 0) (180, 100) (0, 100) = 18000 := by
      unfold contourArea4
      norm_num
    have hasp : tableAspect (0, 0) (180, 0) (180, 100) (0, 100) =
        180 / (100 + 1 / 1000000) := by
      unfold tableAspect
      rw [hw, hh]
    refine ⟨by rw [ha]; norm_num, by rw [hw]; norm_num, by rw [hh]; norm_num,
      ?_, ?_, fun _ => by rw [hw]; norm_num, fun _ => by rw [hh]; norm_num⟩
    · rw [hasp, le_div_iff (by norm_num)]
      norm_num
    · rw [hasp, div_le_iff (by norm_num)]
      norm_num

/-- C7 witness: the rejection direction at a concrete too-narrow quad
(aspect ≈ 0.1, far below 1.3) in a 1280×720 frame. -/
theorem validator_soundness_witness :
    ¬ valid_table (0, 0) (10, 0) (10, 100) (0, 100) 720 1280 2000 (13 / 10) (11 / 2) := by
  apply validator_soundness.1
  left; left
  have hw : tableW (0, 0) (10, 0) (10, 100) (0, 100) = 10 := by
    unfold tableW
    rw [ptDist_horiz, ptDist_horiz]
    norm_num
  have hh : tableH (0, 0) (10, 0) (10, 100) (0, 100) = 100 := by
    unfold tableH
    rw [ptDist_vert, ptDist_vert]
    norm_num
  unfold tableAspect
  rw [hw, hh]
  rw [div_lt_iff (by norm_num)]
  norm_num

/-! ### C10: detector warm-up -/

/-- C10: for every freshly constructed candidate extractor — any frame
type, grayscale conversion, background model and candidate pipeline —
the first two `detect` calls return `none` regardless of the frames,
previous position, ROI corners, search radius or desperate flag;
extraction can only begin on the third call, once two frames of
grayscale history have been accumulated. -/
theorem detector_first_two_none (Frame Gray BG Cand : Type)
    (toGray : Frame → Gray) (bgApply : BG → Frame → BG)
    (pipeline : Frame → Option Gray → Option Gray → BG → Option (ℚ × ℚ) →
      Option (List (ℚ × ℚ)) → ℚ → Bool → Option Cand)
    (bg0 : BG) (f1 f2 : Frame) (p1 p2 : Option (ℚ × ℚ))
    (t1 t2 : Option (List (ℚ × ℚ))) (r1 r2 : ℚ) (d1 d2 : Bool) :
    (detect Frame Gray BG Cand toGray bgApply pipeline
      (detectorInit Gray BG bg0) f1 p1 t1 r1 d1).1 = none ∧
    (detect Frame Gray BG Cand toGray bgApply pipeline
      (detect Frame Gray BG Cand toGray bgApply pipeline
        (detectorInit Gray BG bg0) f1 p1 t1 r1 d1).2 f2 p2 t2 r2 d2).1 = none := by
  exact ⟨rfl, rfl⟩

/-- C10 witness: the warm-up at a concrete instantiation whose pipeline
would otherwise always produce a candidate. -/
theorem detector_first_two_none_witness :
    (detect Unit Unit Unit Nat (fun _ => ()) (fun _ _ => ())
      (fun _ _ _ _ _ _ _ _ => some 7)
      (detectorInit Unit Unit ()) () none none 120 false).1 = none ∧
    (detect Unit Unit Unit Nat (fun _ => ()) (fun _ _ => ())
      (fun _ _ _ _ _ _ _ _ => some 7)
      (detect Unit Unit Unit Nat (fun _ => ()) (fun _ _ => ())
        (fun _ _ _ _ _ _ _ _ => some 7)
        (detectorInit Unit Unit ()) () none none 120 false).2
      () none none 120 false).1 = none :=
  detector_first_two_none Unit Unit Unit Nat (fun _ => ()) (fun _ _ => ())
    (fun _ _ _ _ _ _ _ _ => some 7) () () () none none none none 120 120 false false

end TTTrack
